import Mathlib

/-!
Verification of the frame-level decision pipeline of the vehicle proximity
safety system (AVPSS): depth sampling, proximity/side classification, the
region-of-interest collision evaluator, the persistence state machines,
and the per-frame orchestrator.

Numeric values (pixel coordinates, confidences, depth values) are embedded
as rationals; dictionary lookups that can fail (`class_names[class_id]`)
and array reads that can raise are embedded in `Option`, so a `none`
result models a raised Python exception.
-/

namespace AVPSS

/-! ## Configuration constants (src/config/settings.py) -/

def CONFIDENCE_THRESHOLD : ℚ := 1/2
def DEPTH_SAMPLE_SIZE : ℕ := 10
def DEPTH_COLLISION_SAMPLE_SIZE : ℕ := 5
def WARNING_THRESHOLD : ℕ := 3
def COLLISION_THRESHOLD : ℚ := 600
def COLLISION_ALERT_THRESHOLD : ℕ := 2
def CLOSE_DEPTH_THRESHOLD : ℚ := 1200
def GRID_COLS : ℕ := 4
def GRID_ROWS : ℕ := 3

/-- The ROAD_CLASSES mapping from settings.py: semantic name to class id. -/
def ROAD_CLASSES : List (String × ℤ) :=
  [("person", 0), ("bicycle", 1), ("car", 2), ("motorcycle", 3),
   ("bus", 5), ("train", 6), ("truck", 7)]

/-- `class_id in ROAD_CLASSES.values()`. -/
def isRoadClass (i : ℤ) : Bool := (ROAD_CLASSES.map Prod.snd).contains i

/-! ## Data model -/

/-- One detection produced by the external detector: bbox corner
coordinates `x1 y1 x2 y2` (pixel coordinates, possibly fractional),
a confidence score and an integer class id. -/
structure Detection where
  x1 : ℚ
  y1 : ℚ
  x2 : ℚ
  y2 : ℚ
  confidence : ℚ
  class_id : ℤ

/-- A depth map: a 2D array of scalar depth values with positive
dimensions (the depth model always emits a non-empty map), read through
`data row col`. -/
structure DepthMap where
  height : ℕ
  width : ℕ
  height_pos : 0 < height
  width_pos : 0 < width
  data : ℕ → ℕ → ℚ

/-- The `class_names` dictionary (YOLO `model.names`): a partial map from
class id to class name; `none` models a key that is absent, so reading it
raises `KeyError`. -/
abbrev ClassNames := ℤ → Option String

/-- Python `int(q)`: truncation toward zero. -/
def pyInt (q : ℚ) : ℤ := Int.tdiv q.num q.den

/-- `center_x = int((x1 + x2) / 2)`. -/
def centerXInt (d : Detection) : ℤ := pyInt ((d.x1 + d.x2) / 2)

/-- `center_y = int((y1 + y2) / 2)`. -/
def centerYInt (d : Detection) : ℤ := pyInt ((d.y1 + d.y2) / 2)

/-! ## Depth sampling (src/models/depth_estimator.py `get_depth_at_location`;
the identical inlined loops in warnings.py and roi_manager.py) -/

/-- `max(0, min(dim - 1, v))`: clamp an index into `[0, dim-1]`. -/
def clampIdx (dim : ℕ) (v : ℤ) : ℤ := max 0 (min ((dim : ℤ) - 1) v)

/-- The offsets of `range(-r, r, 2)`: `-r, -r+2, ...` (exactly `r` values). -/
def sampleOffsets (r : ℕ) : List ℤ := (List.range r).map (fun i => -(r : ℤ) + 2 * i)

/-- All `(dx, dy)` pairs in Python iteration order (`dx` outer, `dy` inner). -/
def offsetPairs (r : ℕ) : List (ℤ × ℤ) :=
  ((sampleOffsets r).map (fun dx => (sampleOffsets r).map (fun dy => (dx, dy)))).flatten

/-- A guarded read `depth_map[y, x]`: `none` models an out-of-range
index error. -/
def readPixel (dm : DepthMap) (y x : ℤ) : Option ℚ :=
  if 0 ≤ y ∧ y < (dm.height : ℤ) ∧ 0 ≤ x ∧ x < (dm.width : ℤ) then
    some (dm.data y.toNat x.toNat)
  else none

/-- The sampling loop: for each offset pair, clamp the coordinate on each
axis and read the pixel.  Fails (`none`) if any read is out of range. -/
def gatherSamples (dm : DepthMap) (cx cy : ℤ) (r : ℕ) : Option (List ℚ) :=
  (offsetPairs r).mapM (fun p =>
    readPixel dm (clampIdx dm.height (cy + p.2)) (clampIdx dm.width (cx + p.1)))

/-- The sample list the loop produces when every read is in range:
the pixel value at each clamped coordinate. -/
def clampedSamples (dm : DepthMap) (cx cy : ℤ) (r : ℕ) : List ℚ :=
  (offsetPairs r).map (fun p =>
    dm.data (clampIdx dm.height (cy + p.2)).toNat (clampIdx dm.width (cx + p.1)).toNat)

/-- Insert a value into an ascending-sorted list, keeping it sorted. -/
def insertSorted (a : ℚ) : List ℚ → List ℚ
  | [] => [a]
  | b :: l => if a ≤ b then a :: b :: l else b :: insertSorted a l

/-- Sort a list of rationals ascending (insertion sort). -/
def sortAsc (l : List ℚ) : List ℚ := l.foldr insertSorted []

/-- `np.median`: sort ascending; middle element for odd length, mean of
the two middle elements for even positive length. -/
def npMedian (l : List ℚ) : ℚ :=
  let s := sortAsc l
  let n := l.length
  if n % 2 = 1 then s.getD (n / 2) 0
  else if n = 0 then 0
  else (s.getD (n / 2 - 1) 0 + s.getD (n / 2) 0) / 2

/-- `DepthEstimator.get_depth_at_location`: median of the sampled values. -/
def get_depth_at_location (dm : DepthMap) (cx cy : ℤ) (sample_size : ℕ) : Option ℚ :=
  (gatherSamples dm cx cy sample_size).map npMedian

/-! ## ROI evaluator (src/utils/roi_manager.py) -/

/-- `ROIManager.get_roi_coordinates`: `(roi_left, roi_top, roi_right,
roi_bottom)` from the `GRID_COLS x GRID_ROWS` cell grid (integer
division). -/
def get_roi_coordinates (frame_width frame_height : ℕ) : ℕ × ℕ × ℕ × ℕ :=
  let grid_width := frame_width / GRID_COLS
  let grid_height := frame_height / GRID_ROWS
  (grid_width, frame_height - grid_height, 3 * grid_width, frame_height)

/-- `ROIManager.is_in_collision_roi`: the bbox intersects the ROI unless
it lies entirely left, right, above or below it. -/
def is_in_collision_roi (x1 y1 x2 y2 : ℚ) (frame_width frame_height : ℕ) : Bool :=
  let grid_width := frame_width / GRID_COLS
  let grid_height := frame_height / GRID_ROWS
  let roi_top : ℚ := ((frame_height - grid_height : ℕ) : ℚ)
  let roi_bottom : ℚ := frame_height
  let roi_left : ℚ := grid_width
  let roi_right : ℚ := ((3 * grid_width : ℕ) : ℚ)
  !(decide (x2 < roi_left) || decide (x1 > roi_right) ||
    decide (y2 < roi_top) || decide (y1 > roi_bottom))

/-- The confidence/road-class filter shared by the classifier and the
collision check: `confidence > CONFIDENCE_THRESHOLD and class_id in
ROAD_CLASSES.values()`. -/
def confRoadOK (d : Detection) : Bool :=
  decide (CONFIDENCE_THRESHOLD < d.confidence) && isRoadClass d.class_id

/-- `ROIManager.check_collision_alert`.  The class-name lookup happens
before the filter, so an unknown `class_id` yields `none` (KeyError).
A detection that passes the filter, intersects the ROI and has median
sampled depth above `COLLISION_THRESHOLD` makes the result `true`
immediately (the loop breaks). -/
def check_collision_alert (dets : List Detection) (depth_map : Option DepthMap)
    (frame_width frame_height : ℕ) (class_names : ClassNames) : Option Bool :=
  match dets with
  | [] => some false
  | d :: rest =>
    match class_names d.class_id with
    | none => none
    | some _class_name =>
      if confRoadOK d then
        if is_in_collision_roi d.x1 d.y1 d.x2 d.y2 frame_width frame_height then
          match depth_map with
          | none => check_collision_alert rest depth_map frame_width frame_height class_names
          | some dm =>
            match gatherSamples dm (centerXInt d) (centerYInt d) DEPTH_COLLISION_SAMPLE_SIZE with
            | none => none
            | some depth_values =>
              if COLLISION_THRESHOLD < npMedian depth_values then some true
              else check_collision_alert rest depth_map frame_width frame_height class_names
        else check_collision_alert rest depth_map frame_width frame_height class_names
      else check_collision_alert rest depth_map frame_width frame_height class_names

/-! ## Proximity classifier (src/utils/warnings.py
`get_close_vehicles_by_side`) -/

/-- The side test applied to a close detection: `(x1 + x2) / 2 <
frame_width / 2` puts it in the left bucket (true division, no
truncation at this point in the code). -/
def sideLeft (d : Detection) (frame_width : ℕ) : Bool :=
  decide ((d.x1 + d.x2) / 2 < (frame_width : ℚ) / 2)

/-- `WarningSystem.get_close_vehicles_by_side`: returns the pair
`(left_close_vehicles, right_close_vehicles)` of class names.  The
class-name lookup happens before the filter (possible KeyError =
`none`); the depth sampling uses the fixed radius 5; a detection is
close iff the median sampled depth exceeds `CLOSE_DEPTH_THRESHOLD`;
with no depth map nothing is close. -/
def get_close_vehicles_by_side (dets : List Detection) (depth_map : Option DepthMap)
    (frame_width : ℕ) (class_names : ClassNames) : Option (List String × List String) :=
  match dets with
  | [] => some ([], [])
  | d :: rest =>
    match class_names d.class_id with
    | none => none
    | some class_name =>
      if confRoadOK d then
        match depth_map with
        | none => get_close_vehicles_by_side rest depth_map frame_width class_names
        | some dm =>
          match gatherSamples dm (centerXInt d) (centerYInt d) 5 with
          | none => none
          | some depth_values =>
            if CLOSE_DEPTH_THRESHOLD < npMedian depth_values then
              match get_close_vehicles_by_side rest depth_map frame_width class_names with
              | none => none
              | some (l, r) =>
                if sideLeft d frame_width then some (class_name :: l, r)
                else some (l, class_name :: r)
            else get_close_vehicles_by_side rest depth_map frame_width class_names
      else get_close_vehicles_by_side rest depth_map frame_width class_names

/-! ## Persistence state machines (src/utils/warnings.py `WarningSystem`) -/

/-- The mutable state of `WarningSystem`: three persistence counters and
their thresholds. -/
structure WarningSystem where
  left_warning_frames : ℕ
  right_warning_frames : ℕ
  warning_threshold : ℕ
  collision_alert_frames : ℕ
  collision_alert_threshold : ℕ

/-- `WarningSystem.__init__`: counters start at 0, thresholds from
settings. -/
def initWarningSystem : WarningSystem :=
  ⟨0, 0, WARNING_THRESHOLD, 0, COLLISION_ALERT_THRESHOLD⟩

/-- `WarningSystem.update_warning_persistence`: each side counter is
incremented when its list of close vehicles is non-empty (truthy) and
reset to 0 otherwise. -/
def update_warning_persistence (ws : WarningSystem)
    (left_close_vehicles right_close_vehicles : List String) : WarningSystem :=
  { ws with
    left_warning_frames :=
      if left_close_vehicles.isEmpty then 0 else ws.left_warning_frames + 1,
    right_warning_frames :=
      if right_close_vehicles.isEmpty then 0 else ws.right_warning_frames + 1 }

/-- `WarningSystem.update_collision_persistence`. -/
def update_collision_persistence (ws : WarningSystem) (collision_detected : Bool) :
    WarningSystem :=
  { ws with collision_alert_frames :=
      if collision_detected then ws.collision_alert_frames + 1 else 0 }

/-- `WarningSystem.should_show_collision_alert`:
`collision_alert_frames >= collision_alert_threshold`. -/
def should_show_collision_alert (ws : WarningSystem) : Bool :=
  decide (ws.collision_alert_threshold ≤ ws.collision_alert_frames)

/-- The display guard of the left warning in `draw_warnings`:
`left_warning_frames >= warning_threshold`. -/
def should_show_left_warning (ws : WarningSystem) : Bool :=
  decide (ws.warning_threshold ≤ ws.left_warning_frames)

/-- The display guard of the right warning in `draw_warnings`. -/
def should_show_right_warning (ws : WarningSystem) : Bool :=
  decide (ws.warning_threshold ≤ ws.right_warning_frames)

/-! ## Frame decision orchestrator
(src/models/detector.py `RoadObjectDetector._process_frame`) -/

/-- The three display booleans a processed frame exposes. -/
structure FrameOutput where
  show_left_warning : Bool
  show_right_warning : Bool
  show_collision_alert : Bool

/-- One `_process_frame` step, restricted to the decision pipeline:
classify close vehicles, update the side counters, run the collision
check only when a depth map is present (otherwise the collision signal
is `False`), update the collision counter, and read all three display
guards from the updated state. -/
def process_frame (ws : WarningSystem) (dets : List Detection)
    (depth_map : Option DepthMap) (frame_width frame_height : ℕ)
    (class_names : ClassNames) : Option (WarningSystem × FrameOutput) :=
  match get_close_vehicles_by_side dets depth_map frame_width class_names with
  | none => none
  | some (left_close, right_close) =>
    let ws1 := update_warning_persistence ws left_close right_close
    let collisionOpt : Option Bool :=
      match depth_map with
      | none => some false
      | some dm => check_collision_alert dets (some dm) frame_width frame_height class_names
    match collisionOpt with
    | none => none
    | some collision_detected =>
      let ws2 := update_collision_persistence ws1 collision_detected
      some (ws2, ⟨should_show_left_warning ws2, should_show_right_warning ws2,
                  should_show_collision_alert ws2⟩)

/-! ## Declarative characterizations of the per-frame functions -/

/-- A detection is "close" for the proximity classifier: a depth map is
present and the median of the radius-5 samples at the truncated bbox
center exceeds `CLOSE_DEPTH_THRESHOLD`. -/
def closeDepthOK (d : Detection) (depth_map : Option DepthMap) : Bool :=
  match depth_map with
  | none => false
  | some dm =>
    decide (CLOSE_DEPTH_THRESHOLD <
      npMedian (clampedSamples dm (centerXInt d) (centerYInt d) 5))

/-- A detection contributes a proximity entry iff it passes the
confidence/road-class filter and is close. -/
def qProx (d : Detection) (depth_map : Option DepthMap) : Bool :=
  confRoadOK d && closeDepthOK d depth_map

/-- The left bucket `get_close_vehicles_by_side` builds: one class-name
entry per qualifying close detection whose bbox center lies in the left
half of the frame, in detection order. -/
def leftModel (dets : List Detection) (depth_map : Option DepthMap)
    (frame_width : ℕ) (class_names : ClassNames) : List String :=
  dets.filterMap (fun d =>
    if qProx d depth_map && sideLeft d frame_width then
      some ((class_names d.class_id).getD "")
    else none)

/-- The right bucket: same, for centers not in the left half. -/
def rightModel (dets : List Detection) (depth_map : Option DepthMap)
    (frame_width : ℕ) (class_names : ClassNames) : List String :=
  dets.filterMap (fun d =>
    if qProx d depth_map && !sideLeft d frame_width then
      some ((class_names d.class_id).getD "")
    else none)

/-- A detection triggers the collision condition: filter passes, bbox
intersects the ROI, a depth map is present, and the median of the
radius-`DEPTH_COLLISION_SAMPLE_SIZE` samples at the truncated bbox
center exceeds `COLLISION_THRESHOLD`. -/
def qColl (d : Detection) (depth_map : Option DepthMap)
    (frame_width frame_height : ℕ) : Bool :=
  confRoadOK d && is_in_collision_roi d.x1 d.y1 d.x2 d.y2 frame_width frame_height &&
  (match depth_map with
   | none => false
   | some dm =>
     decide (COLLISION_THRESHOLD <
       npMedian (clampedSamples dm (centerXInt d) (centerYInt d)
         DEPTH_COLLISION_SAMPLE_SIZE)))

/-- The per-frame collision signal the orchestrator feeds to the
collision counter: `False` without a depth map, otherwise the collision
check result. -/
def frameCollisionSignal (dets : List Detection) (depth_map : Option DepthMap)
    (frame_width frame_height : ℕ) : Bool :=
  match depth_map with
  | none => false
  | some dm => dets.any (fun d => qColl d (some dm) frame_width frame_height)

/-- The state after one orchestrator step. -/
def stepWS (ws : WarningSystem) (dets : List Detection) (depth_map : Option DepthMap)
    (frame_width frame_height : ℕ) (class_names : ClassNames) : WarningSystem :=
  update_collision_persistence
    (update_warning_persistence ws
      (leftModel dets depth_map frame_width class_names)
      (rightModel dets depth_map frame_width class_names))
    (frameCollisionSignal dets depth_map frame_width frame_height)

/-- The display flags read from a state. -/
def outputOf (ws : WarningSystem) : FrameOutput :=
  ⟨should_show_left_warning ws, should_show_right_warning ws,
   should_show_collision_alert ws⟩

/-! ## Concrete material for witnesses and counterexamples -/

/-- A model of the detector's `class_names` dictionary (`model.names`):
every id in `[0, 80)` is a key (road-class ids keep their semantic
names), every other id is absent. -/
def cocoNames : ClassNames := fun i =>
  if 0 ≤ i ∧ i < 80 then
    some (((ROAD_CLASSES.find? (fun p => p.2 == i)).map Prod.fst).getD "other")
  else none

/-- A road-relevant, high-confidence car detection whose bbox lies inside
the 800x600 ROI. -/
def wCar : Detection := ⟨250, 450, 350, 550, 9/10, 2⟩

/-- A detection with confidence 0.4 and a class id that is neither a road
class nor a key of `cocoNames`. -/
def wBad : Detection := ⟨250, 450, 350, 550, 2/5, 999⟩

/-- A 600x800 depth map whose value is 700 everywhere. -/
def wDm : DepthMap := ⟨600, 800, by norm_num, by norm_num, fun _ _ => 700⟩

/-! ## Helper lemmas -/

theorem mapM_option_eq_map {α β : Type} (f : α → Option β) (g : α → β) :
    ∀ l : List α, (∀ a ∈ l, f a = some (g a)) → l.mapM f = some (l.map g) := by
  intro l
  induction l with
  | nil => intro _; rfl
  | cons a l ih =>
    intro h
    have ha := h a (by simp)
    have hl := ih (fun x hx => h x (by simp [hx]))
    rw [List.mapM_cons, ha, hl]
    rfl

theorem clampIdx_bounds (dim : ℕ) (hpos : 0 < dim) (v : ℤ) :
    0 ≤ clampIdx dim v ∧ clampIdx dim v < (dim : ℤ) := by
  simp only [clampIdx]
  omega

theorem readPixel_clamped (dm : DepthMap) (y x : ℤ) :
    readPixel dm (clampIdx dm.height y) (clampIdx dm.width x) =
      some (dm.data (clampIdx dm.height y).toNat (clampIdx dm.width x).toNat) := by
  have hy := clampIdx_bounds dm.height dm.height_pos y
  have hx := clampIdx_bounds dm.width dm.width_pos x
  simp [readPixel, hy.1, hy.2, hx.1, hx.2]

theorem gatherSamples_eq (dm : DepthMap) (cx cy : ℤ) (r : ℕ) :
    gatherSamples dm cx cy r = some (clampedSamples dm cx cy r) := by
  unfold gatherSamples clampedSamples
  exact mapM_option_eq_map _ _ _ (fun p _ => readPixel_clamped dm (cy + p.2) (cx + p.1))

theorem get_close_vehicles_eq (dets : List Detection) (depth_map : Option DepthMap)
    (frame_width : ℕ) (class_names : ClassNames)
    (hkeys : ∀ d ∈ dets, (class_names d.class_id).isSome) :
    get_close_vehicles_by_side dets depth_map frame_width class_names =
      some (leftModel dets depth_map frame_width class_names,
            rightModel dets depth_map frame_width class_names) := by
  induction dets with
  | nil => rfl
  | cons d rest ih =>
    obtain ⟨nm, hnm⟩ := Option.isSome_iff_exists.mp (hkeys d (by simp))
    have hrest := ih (fun x hx => hkeys x (by simp [hx]))
    simp only [get_close_vehicles_by_side, hnm]
    by_cases hc : confRoadOK d
    · rw [if_pos hc]
      cases depth_map with
      | none =>
        simp only [hrest, leftModel, rightModel, List.filterMap_cons, qProx, closeDepthOK,
          Bool.and_false, Bool.false_and, if_neg]
        simp
      | some dm =>
        simp only [gatherSamples_eq]
        by_cases hlt : CLOSE_DEPTH_THRESHOLD <
            npMedian (clampedSamples dm (centerXInt d) (centerYInt d) 5)
        · rw [if_pos hlt]
          simp only [hrest]
          by_cases hside : sideLeft d frame_width
          · rw [if_pos hside]
            simp [leftModel, rightModel, List.filterMap_cons, qProx, closeDepthOK,
              hc, hlt, hside, hnm]
          · rw [if_neg hside]
            simp [leftModel, rightModel, List.filterMap_cons, qProx, closeDepthOK,
              hc, hlt, hside, hnm]
        · rw [if_neg hlt, hrest]
          simp [leftModel, rightModel, List.filterMap_cons, qProx, closeDepthOK, hc, hlt]
    · rw [if_neg hc]
      rw [hrest]
      simp [leftModel, rightModel, List.filterMap_cons, qProx, hc]

theorem check_collision_eq (dets : List Detection) (depth_map : Option DepthMap)
    (frame_width frame_height : ℕ) (class_names : ClassNames)
    (hkeys : ∀ d ∈ dets, (class_names d.class_id).isSome) :
    check_collision_alert dets depth_map frame_width frame_height class_names =
      some (dets.any (fun d => qColl d depth_map frame_width frame_height)) := by
  induction dets with
  | nil => rfl
  | cons d rest ih =>
    obtain ⟨nm, hnm⟩ := Option.isSome_iff_exists.mp (hkeys d (by simp))
    have hrest := ih (fun x hx => hkeys x (by simp [hx]))
    simp only [check_collision_alert, hnm]
    by_cases hc : confRoadOK d
    · rw [if_pos hc]
      by_cases hroi : is_in_collision_roi d.x1 d.y1 d.x2 d.y2 frame_width frame_height
      · rw [if_pos hroi]
        cases depth_map with
        | none =>
          rw [hrest]
          simp [qColl, hc, hroi]
        | some dm =>
          simp only [gatherSamples_eq]
          by_cases hlt : COLLISION_THRESHOLD <
              npMedian (clampedSamples dm (centerXInt d) (centerYInt d)
                DEPTH_COLLISION_SAMPLE_SIZE)
          · rw [if_pos hlt]
            simp [qColl, hc, hroi, hlt]
          · rw [if_neg hlt, hrest]
            simp [qColl, hc, hroi, hlt]
      · rw [if_neg hroi, hrest]
        simp [qColl, hc, hroi]
    · rw [if_neg hc, hrest]
      simp [qColl, hc]

theorem process_frame_eq (ws : WarningSystem) (dets : List Detection)
    (depth_map : Option DepthMap) (frame_width frame_height : ℕ)
    (class_names : ClassNames)
    (hkeys : ∀ d ∈ dets, (class_names d.class_id).isSome) :
    process_frame ws dets depth_map frame_width frame_height class_names =
      some (stepWS ws dets depth_map frame_width frame_height class_names,
            outputOf (stepWS ws dets depth_map frame_width frame_height class_names)) := by
  unfold process_frame
  simp only [get_close_vehicles_eq dets depth_map frame_width class_names hkeys]
  cases depth_map with
  | none => simp [stepWS, frameCollisionSignal, outputOf]
  | some dm =>
    simp only [check_collision_eq dets (some dm) frame_width frame_height class_names hkeys]
    simp [stepWS, frameCollisionSignal, outputOf]

/-- A depth map of size 600x800 whose value is 1300 everywhere (above the
close-depth threshold). -/
def wDmClose : DepthMap := ⟨600, 800, by norm_num, by norm_num, fun _ _ => 1300⟩

/-! ## Claim theorems -/

/-- Claim C9: for every (non-empty) depth map, any integer center
coordinates and any radius, the sampling loop clamps every index it
reads into the map bounds, never fails, and returns the median of the
clamped samples. -/
theorem depth_sampling_clamped_total (dm : DepthMap) (cx cy : ℤ) (r : ℕ) :
    (∀ v : ℤ, 0 ≤ clampIdx dm.height v ∧ clampIdx dm.height v < (dm.height : ℤ) ∧
              0 ≤ clampIdx dm.width v ∧ clampIdx dm.width v < (dm.width : ℤ)) ∧
    gatherSamples dm cx cy r = some (clampedSamples dm cx cy r) ∧
    get_depth_at_location dm cx cy r = some (npMedian (clampedSamples dm cx cy r)) := by
  refine ⟨fun v => ?_, gatherSamples_eq dm cx cy r, ?_⟩
  · have h1 := clampIdx_bounds dm.height dm.height_pos v
    have h2 := clampIdx_bounds dm.width dm.width_pos v
    exact ⟨h1.1, h1.2, h2.1, h2.2⟩
  · simp [get_depth_at_location, gatherSamples_eq]

/-- Claim C5: the ROI rectangle is `(cell_w, h - cell_h, 3*cell_w, h)`
with integer-division cell sizes; at 800x600 it is `(200, 400, 600, 600)`. -/
theorem roi_geometry (w h : ℕ) :
    get_roi_coordinates w h = (w / GRID_COLS, h - h / GRID_ROWS, 3 * (w / GRID_COLS), h) ∧
    get_roi_coordinates 800 600 = (200, 400, 600, 600) :=
  ⟨rfl, by decide⟩

/-- Claim C3: when every class id is a key of `class_names` and a depth
map is present, `check_collision_alert` succeeds and returns `true` iff
some detection passes the confidence/road-class filter, intersects the
ROI and has median clamped-sample depth above `COLLISION_THRESHOLD`. -/
theorem collision_condition_characterization (dets : List Detection) (dm : DepthMap)
    (frame_width frame_height : ℕ) (class_names : ClassNames)
    (hkeys : ∀ d ∈ dets, (class_names d.class_id).isSome) :
    (check_collision_alert dets (some dm) frame_width frame_height class_names = some true ↔
      ∃ d ∈ dets, qColl d (some dm) frame_width frame_height = true) ∧
    (check_collision_alert dets (some dm) frame_width frame_height class_names).isSome := by
  rw [check_collision_eq dets (some dm) frame_width frame_height class_names hkeys]
  constructor
  · simp [List.any_eq_true]
  · simp

theorem collision_condition_characterization_witness :
    (check_collision_alert [wCar] (some wDm) 800 600 cocoNames = some true ↔
      ∃ d ∈ [wCar], qColl d (some wDm) 800 600 = true) ∧
    (check_collision_alert [wCar] (some wDm) 800 600 cocoNames).isSome :=
  collision_condition_characterization [wCar] wDm 800 600 cocoNames (by decide)

/-- Claim C4: when every class id is a key of `class_names` and a depth
map is present, `get_close_vehicles_by_side` succeeds and its two lists
contain exactly one class-name entry per detection that passes the
confidence/road-class filter and whose median clamped-sample depth
(radius 5) exceeds `CLOSE_DEPTH_THRESHOLD`, bucketed left iff the bbox
center is in the left half of the frame. -/
theorem proximity_classification_characterization (dets : List Detection) (dm : DepthMap)
    (frame_width : ℕ) (class_names : ClassNames)
    (hkeys : ∀ d ∈ dets, (class_names d.class_id).isSome) :
    get_close_vehicles_by_side dets (some dm) frame_width class_names =
      some (leftModel dets (some dm) frame_width class_names,
            rightModel dets (some dm) frame_width class_names) :=
  get_close_vehicles_eq dets (some dm) frame_width class_names hkeys

theorem proximity_classification_characterization_witness :
    get_close_vehicles_by_side [wCar] (some wDmClose) 800 cocoNames =
      some (leftModel [wCar] (some wDmClose) 800 cocoNames,
            rightModel [wCar] (some wDmClose) 800 cocoNames) :=
  proximity_classification_characterization [wCar] wDmClose 800 cocoNames (by decide)

/-- Feed `k` consecutive frames with a non-empty left close-list (a
positive left signal) into the warning system, oldest first. -/
def iterLeftTrue : ℕ → WarningSystem → WarningSystem
  | 0, ws => ws
  | k + 1, ws => iterLeftTrue k (update_warning_persistence ws ["car"] [])

theorem iterLeftTrue_left_count (k : ℕ) :
    ∀ ws : WarningSystem,
      (iterLeftTrue k ws).left_warning_frames = ws.left_warning_frames + k := by
  induction k with
  | zero => intro ws; rfl
  | succ k ih =>
    intro ws
    rw [iterLeftTrue, ih]
    simp [update_warning_persistence]
    omega

theorem iterLeftTrue_threshold (k : ℕ) :
    ∀ ws : WarningSystem, (iterLeftTrue k ws).warning_threshold = ws.warning_threshold := by
  induction k with
  | zero => intro ws; rfl
  | succ k ih => intro ws; rw [iterLeftTrue, ih]; rfl

/-- Claim C2: the persistence counters start at 0; a positive signal
increments a counter and a negative signal resets it to 0; the fire
check is `count >= threshold`.  For the left-warning counter (threshold
3 at session start): after `k` consecutive positive frames it fires iff
`k >= 3`; one negative frame resets it to 0 and silences it at once; a
fresh run of `m` positive frames fires again iff `m >= 3`. -/
theorem persistence_state_machine :
    initWarningSystem.left_warning_frames = 0 ∧
    initWarningSystem.right_warning_frames = 0 ∧
    initWarningSystem.collision_alert_frames = 0 ∧
    initWarningSystem.warning_threshold = 3 ∧
    (∀ (ws : WarningSystem) (b : Bool),
      (update_collision_persistence ws b).collision_alert_frames =
        if b then ws.collision_alert_frames + 1 else 0) ∧
    (∀ (ws : WarningSystem) (l r : List String),
      (update_warning_persistence ws l r).left_warning_frames =
        if l.isEmpty then 0 else ws.left_warning_frames + 1) ∧
    (∀ (ws : WarningSystem) (l r : List String),
      (update_warning_persistence ws l r).right_warning_frames =
        if r.isEmpty then 0 else ws.right_warning_frames + 1) ∧
    (∀ ws : WarningSystem, should_show_collision_alert ws = true ↔
      ws.collision_alert_threshold ≤ ws.collision_alert_frames) ∧
    (∀ k : ℕ, should_show_left_warning (iterLeftTrue k initWarningSystem) = true ↔ 3 ≤ k) ∧
    (∀ k : ℕ,
      (update_warning_persistence (iterLeftTrue k initWarningSystem) [] []).left_warning_frames
        = 0) ∧
    (∀ k : ℕ, should_show_left_warning
      (update_warning_persistence (iterLeftTrue k initWarningSystem) [] []) = false) ∧
    (∀ k m : ℕ, should_show_left_warning
      (iterLeftTrue m (update_warning_persistence (iterLeftTrue k initWarningSystem) [] []))
        = true ↔ 3 ≤ m) := by
  refine ⟨rfl, rfl, rfl, rfl, fun ws b => rfl, fun ws l r => ?_, fun ws l r => ?_,
    fun ws => ?_, fun k => ?_, fun k => ?_, fun k => ?_, fun k m => ?_⟩
  · cases l <;> rfl
  · cases r <;> rfl
  · simp [should_show_collision_alert]
  · simp [should_show_left_warning, iterLeftTrue_left_count, iterLeftTrue_threshold,
      initWarningSystem, WARNING_THRESHOLD]
  · simp [update_warning_persistence]
  · simp [should_show_left_warning, update_warning_persistence, iterLeftTrue_threshold,
      initWarningSystem, WARNING_THRESHOLD]
  · simp [should_show_left_warning, iterLeftTrue_left_count, iterLeftTrue_threshold,
      update_warning_persistence, initWarningSystem, WARNING_THRESHOLD]

/-- Claim C6: for a well-formed bbox, `is_in_collision_roi` is true iff
the closed x-interval of the bbox meets `[roi_left, roi_right]` and its
closed y-interval meets `[roi_top, roi_bottom]`; the bbox
`(200,400,300,500)` intersects the 800x600 ROI and `(50,100,150,200)`
does not. -/
theorem roi_intersection_separating_axis (x1 y1 x2 y2 : ℚ) (frame_width frame_height : ℕ)
    (hx : x1 ≤ x2) (hy : y1 ≤ y2) :
    (is_in_collision_roi x1 y1 x2 y2 frame_width frame_height = true ↔
      ((Set.Icc x1 x2 ∩
          Set.Icc (((get_roi_coordinates frame_width frame_height).1 : ℚ))
            (((get_roi_coordinates frame_width frame_height).2.2.1 : ℚ))).Nonempty ∧
       (Set.Icc y1 y2 ∩
          Set.Icc (((get_roi_coordinates frame_width frame_height).2.1 : ℚ))
            (((get_roi_coordinates frame_width frame_height).2.2.2 : ℚ))).Nonempty)) ∧
    is_in_collision_roi 200 400 300 500 800 600 = true ∧
    is_in_collision_roi 50 100 150 200 800 600 = false := by
  refine ⟨?_, by with_unfolding_all decide, by with_unfolding_all decide⟩
  have hLR : (((frame_width / GRID_COLS : ℕ) : ℚ)) ≤ (((3 * (frame_width / GRID_COLS) : ℕ) : ℚ)) := by
    have h : (frame_width / GRID_COLS : ℕ) ≤ 3 * (frame_width / GRID_COLS) := by
      set q := frame_width / GRID_COLS
      omega
    exact_mod_cast h
  have hTB : (((frame_height - frame_height / GRID_ROWS : ℕ) : ℚ)) ≤ ((frame_height : ℕ) : ℚ) :=
    Nat.cast_le.mpr (Nat.sub_le _ _)
  simp only [is_in_collision_roi, get_roi_coordinates, Set.Icc_inter_Icc, Set.nonempty_Icc,
    sup_le_iff, le_inf_iff, Bool.not_eq_true', Bool.or_eq_false_iff, decide_eq_false_iff_not,
    not_lt]
  tauto

theorem roi_intersection_separating_axis_witness :
    (is_in_collision_roi 200 400 300 500 800 600 = true ↔
      ((Set.Icc (200 : ℚ) 300 ∩
          Set.Icc (((get_roi_coordinates 800 600).1 : ℚ))
            (((get_roi_coordinates 800 600).2.2.1 : ℚ))).Nonempty ∧
       (Set.Icc (400 : ℚ) 500 ∩
          Set.Icc (((get_roi_coordinates 800 600).2.1 : ℚ))
            (((get_roi_coordinates 800 600).2.2.2 : ℚ))).Nonempty)) ∧
    is_in_collision_roi 200 400 300 500 800 600 = true ∧
    is_in_collision_roi 50 100 150 200 800 600 = false :=
  roi_intersection_separating_axis 200 400 300 500 800 600 (by norm_num) (by norm_num)

/-- Claim C1: starting from the initial state (all counters 0, collision
threshold 2), two consecutive frames that each contain a qualifying
collision detection (filter passes, bbox meets the ROI, median sampled
depth above `COLLISION_THRESHOLD`) and have a depth map produce
`show_collision_alert = false` after the first frame and `true` after
the second. -/
theorem collision_alert_two_frame_scenario
    (dets1 dets2 : List Detection) (dm1 dm2 : DepthMap) (frame_width frame_height : ℕ)
    (class_names : ClassNames)
    (hk1 : ∀ d ∈ dets1, (class_names d.class_id).isSome)
    (hk2 : ∀ d ∈ dets2, (class_names d.class_id).isSome)
    (h1 : dets1.any (fun d => qColl d (some dm1) frame_width frame_height) = true)
    (h2 : dets2.any (fun d => qColl d (some dm2) frame_width frame_height) = true) :
    ∃ ws1 o1 ws2 o2,
      process_frame initWarningSystem dets1 (some dm1) frame_width frame_height class_names
        = some (ws1, o1) ∧
      o1.show_collision_alert = false ∧
      process_frame ws1 dets2 (some dm2) frame_width frame_height class_names
        = some (ws2, o2) ∧
      o2.show_collision_alert = true := by
  have e1 := process_frame_eq initWarningSystem dets1 (some dm1) frame_width frame_height
    class_names hk1
  have e2 := process_frame_eq
    (stepWS initWarningSystem dets1 (some dm1) frame_width frame_height class_names)
    dets2 (some dm2) frame_width frame_height class_names hk2
  refine ⟨_, _, _, _, e1, ?_, e2, ?_⟩
  · simp [outputOf, stepWS, frameCollisionSignal, h1, should_show_collision_alert,
      update_collision_persistence, update_warning_persistence, initWarningSystem,
      COLLISION_ALERT_THRESHOLD]
  · simp [outputOf, stepWS, frameCollisionSignal, h1, h2, should_show_collision_alert,
      update_collision_persistence, update_warning_persistence, initWarningSystem,
      COLLISION_ALERT_THRESHOLD]

theorem collision_alert_two_frame_scenario_witness :
    ∃ ws1 o1 ws2 o2,
      process_frame initWarningSystem [wCar] (some wDm) 800 600 cocoNames = some (ws1, o1) ∧
      o1.show_collision_alert = false ∧
      process_frame ws1 [wCar] (some wDm) 800 600 cocoNames = some (ws2, o2) ∧
      o2.show_collision_alert = true :=
  collision_alert_two_frame_scenario [wCar] [wCar] wDm wDm 800 600 cocoNames
    (by decide) (by decide)
    (by with_unfolding_all decide) (by with_unfolding_all decide)

/-- Counterexample to claim C7 as stated: with `depth_map = None` the
classifier does not return two empty lists for every detections list —
a detection whose class id is not a key of `class_names` makes the call
raise `KeyError` (here: `none`) before the filter runs. -/
theorem depth_absent_degradation_counterexample :
    get_close_vehicles_by_side [wBad] none 800 cocoNames ≠ some ([], []) ∧
    get_close_vehicles_by_side [wBad] none 800 cocoNames = none := by
  with_unfolding_all decide

/-- Claim C7 (amended): provided every detection's class id is a key of
`class_names`, a frame without a depth map yields two empty close-lists,
a `false` collision check, and an orchestrator step that feeds `false`
to the collision counter (resetting it to 0). -/
theorem depth_absent_degradation_known_classes (dets : List Detection)
    (frame_width frame_height : ℕ) (ws : WarningSystem) (class_names : ClassNames)
    (hkeys : ∀ d ∈ dets, (class_names d.class_id).isSome) :
    get_close_vehicles_by_side dets none frame_width class_names = some ([], []) ∧
    check_collision_alert dets none frame_width frame_height class_names = some false ∧
    process_frame ws dets none frame_width frame_height class_names =
      some (stepWS ws dets none frame_width frame_height class_names,
            outputOf (stepWS ws dets none frame_width frame_height class_names)) ∧
    frameCollisionSignal dets none frame_width frame_height = false ∧
    (stepWS ws dets none frame_width frame_height class_names).collision_alert_frames = 0 := by
  refine ⟨?_, ?_, process_frame_eq ws dets none frame_width frame_height class_names hkeys,
    rfl, ?_⟩
  · rw [get_close_vehicles_eq dets none frame_width class_names hkeys]
    have hl : leftModel dets none frame_width class_names = [] := by
      simp [leftModel, List.filterMap_eq_nil_iff, qProx, closeDepthOK]
    have hr : rightModel dets none frame_width class_names = [] := by
      simp [rightModel, List.filterMap_eq_nil_iff, qProx, closeDepthOK]
    rw [hl, hr]
  · rw [check_collision_eq dets none frame_width frame_height class_names hkeys]
    simp [qColl]
  · simp [stepWS, frameCollisionSignal, update_collision_persistence]

theorem depth_absent_degradation_known_classes_witness :
    get_close_vehicles_by_side [wCar] none 800 cocoNames = some ([], []) ∧
    check_collision_alert [wCar] none 800 600 cocoNames = some false ∧
    process_frame initWarningSystem [wCar] none 800 600 cocoNames =
      some (stepWS initWarningSystem [wCar] none 800 600 cocoNames,
            outputOf (stepWS initWarningSystem [wCar] none 800 600 cocoNames)) ∧
    frameCollisionSignal [wCar] none 800 600 = false ∧
    (stepWS initWarningSystem [wCar] none 800 600 cocoNames).collision_alert_frames = 0 :=
  depth_absent_degradation_known_classes [wCar] 800 600 initWarningSystem cocoNames (by decide)

theorem gcvbs_insert_inert (d : Detection) (depth_map : Option DepthMap)
    (frame_width : ℕ) (class_names : ClassNames)
    (hkey : (class_names d.class_id).isSome) (hc : confRoadOK d = false) :
    ∀ pre post : List Detection,
      get_close_vehicles_by_side (pre ++ d :: post) depth_map frame_width class_names =
        get_close_vehicles_by_side (pre ++ post) depth_map frame_width class_names := by
  intro pre
  induction pre with
  | nil =>
    intro post
    obtain ⟨nm, hnm⟩ := Option.isSome_iff_exists.mp hkey
    simp only [List.nil_append, get_close_vehicles_by_side, hnm, hc]
    simp
  | cons e pre ih =>
    intro post
    simp only [List.cons_append, get_close_vehicles_by_side, List.append_eq]
    rw [ih post]

theorem cca_insert_inert (d : Detection) (depth_map : Option DepthMap)
    (frame_width frame_height : ℕ) (class_names : ClassNames)
    (hkey : (class_names d.class_id).isSome) (hc : confRoadOK d = false) :
    ∀ pre post : List Detection,
      check_collision_alert (pre ++ d :: post) depth_map frame_width frame_height class_names =
        check_collision_alert (pre ++ post) depth_map frame_width frame_height class_names := by
  intro pre
  induction pre with
  | nil =>
    intro post
    obtain ⟨nm, hnm⟩ := Option.isSome_iff_exists.mp hkey
    simp only [List.nil_append, check_collision_alert, hnm, hc]
    simp
  | cons e pre ih =>
    intro post
    simp only [List.cons_append, check_collision_alert, List.append_eq]
    rw [ih post]

/-- Counterexample to claim C8 as stated: adding a detection with
confidence 0.4 and a class id outside `ROAD_CLASSES` does change the
collision-check result when that class id is not a key of
`class_names` — the call turns into a `KeyError` (`none`). -/
theorem confidence_class_filtering_counterexample :
    wBad.confidence = 2/5 ∧ isRoadClass wBad.class_id = false ∧
    check_collision_alert [wBad] (some wDm) 800 600 cocoNames ≠
      check_collision_alert [] (some wDm) 800 600 cocoNames := by
  with_unfolding_all decide

/-- Claim C8 (amended): adding a detection whose class id is a key of
`class_names` and whose confidence is not above the threshold, or whose
class id is not road-relevant, leaves the close-lists, the collision
check and the whole orchestrator step unchanged. -/
theorem confidence_class_filtering_inert (pre post : List Detection) (d : Detection)
    (depth_map : Option DepthMap) (frame_width frame_height : ℕ) (ws : WarningSystem)
    (class_names : ClassNames)
    (hkey : (class_names d.class_id).isSome)
    (hinert : d.confidence ≤ CONFIDENCE_THRESHOLD ∨ isRoadClass d.class_id = false) :
    get_close_vehicles_by_side (pre ++ d :: post) depth_map frame_width class_names =
      get_close_vehicles_by_side (pre ++ post) depth_map frame_width class_names ∧
    check_collision_alert (pre ++ d :: post) depth_map frame_width frame_height class_names =
      check_collision_alert (pre ++ post) depth_map frame_width frame_height class_names ∧
    process_frame ws (pre ++ d :: post) depth_map frame_width frame_height class_names =
      process_frame ws (pre ++ post) depth_map frame_width frame_height class_names := by
  have hc : confRoadOK d = false := by
    rcases hinert with h | h
    · simp [confRoadOK, not_lt.mpr h]
    · simp [confRoadOK, h]
  have hg := gcvbs_insert_inert d depth_map frame_width class_names hkey hc pre post
  have hcc := cca_insert_inert d depth_map frame_width frame_height class_names hkey hc pre post
  refine ⟨hg, hcc, ?_⟩
  cases depth_map with
  | none => simp only [process_frame, hg]
  | some dm => simp only [process_frame, hg, hcc]

/-- A key-covered but low-confidence car detection inside the ROI. -/
def wLowConf : Detection := ⟨250, 450, 350, 550, 2/5, 2⟩

theorem confidence_class_filtering_inert_witness :
    get_close_vehicles_by_side ([] ++ wLowConf :: [wCar]) (some wDm) 800 cocoNames =
      get_close_vehicles_by_side ([] ++ [wCar]) (some wDm) 800 cocoNames ∧
    check_collision_alert ([] ++ wLowConf :: [wCar]) (some wDm) 800 600 cocoNames =
      check_collision_alert ([] ++ [wCar]) (some wDm) 800 600 cocoNames ∧
    process_frame initWarningSystem ([] ++ wLowConf :: [wCar]) (some wDm) 800 600 cocoNames =
      process_frame initWarningSystem ([] ++ [wCar]) (some wDm) 800 600 cocoNames :=
  confidence_class_filtering_inert [] [wCar] wLowConf (some wDm) 800 600
    initWarningSystem cocoNames (by decide) (Or.inl (by with_unfolding_all decide))

/-- Claim C10: the `class_names[class_id]` lookup runs before the
confidence/road-class filter, so a detections list containing an unknown
class id — even an otherwise-inert detection — makes both functions
raise `KeyError` (`none`); with the precondition that every class id is
a key, both functions are total. -/
theorem class_lookup_before_filter :
    cocoNames wBad.class_id = none ∧
    confRoadOK wBad = false ∧
    get_close_vehicles_by_side [wBad] none 800 cocoNames = none ∧
    get_close_vehicles_by_side [wBad] (some wDm) 800 cocoNames = none ∧
    check_collision_alert [wBad] (some wDm) 800 600 cocoNames = none ∧
    (∀ (dets : List Detection) (dm : DepthMap) (frame_width frame_height : ℕ)
       (class_names : ClassNames),
      (∀ d ∈ dets, (class_names d.class_id).isSome) →
      (get_close_vehicles_by_side dets (some dm) frame_width class_names).isSome ∧
      (check_collision_alert dets (some dm) frame_width frame_height class_names).isSome) := by
  refine ⟨by decide, by with_unfolding_all decide, by decide, by decide, by decide, ?_⟩
  intro dets dm frame_width frame_height class_names hkeys
  constructor
  · rw [get_close_vehicles_eq dets (some dm) frame_width class_names hkeys]; rfl
  · rw [check_collision_eq dets (some dm) frame_width frame_height class_names hkeys]; rfl

theorem class_lookup_before_filter_witness :
    (get_close_vehicles_by_side [wCar] (some wDm) 800 cocoNames).isSome ∧
    (check_collision_alert [wCar] (some wDm) 800 600 cocoNames).isSome :=
  class_lookup_before_filter.2.2.2.2.2 [wCar] wDm 800 600 cocoNames (by decide)

end AVPSS
